import Mathlib

/-!
Shallow embedding of the order/payment/stock core of the `pywebbetta`
storefront (Flask + SQLAlchemy), covering:

* `betta/services/payments.py` — the PromptPay payload encoder
  (`PromptPayPayload.encode`, `_to_promptpay_amount`, `_crc16`);
* `betta/services/shipping.py` — the shipping quote calculator;
* `betta/models.py` — `Coupon.is_valid`, `Coupon.discount_amount`, the
  stock-ledger event listeners `reduce_stock` / `restore_stock`, and the
  `Variant.attributes` property;
* `betta/blueprints/store.py` — the `checkout` POST handler;
* `betta/blueprints/admin.py` — `confirm_payment` and `cancel_order`.

Conventions of the embedding:

* Python `float` currency values are modelled as `ℚ`; Python `int` as `ℤ`
  (quantities, stock) or `ℕ` (identifiers); `datetime` instants as `ℤ`
  (only their linear order and equality are used by the modelled code).
* Python strings processed character-wise (the PromptPay payload) are
  `List Char`; strings used only as tokens/enums are `String`.
* Database tables keyed by primary key are total maps `ℕ → Option row`;
  a SQLAlchemy relationship lookup that can miss is an `Option`.
* Python truthiness is translated explicitly where the source relies on
  it (`0`, `0.0`, `""`, `None` are falsy).
* A request-scoped database transaction is modelled functionally: the
  handler receives the committed state and returns the new committed
  state; `db.session.rollback()` returns the original state unchanged.
-/

namespace Betta

/-! ### Python helpers -/

/-- Python string as a list of characters (`s.data`). -/
def s2l (s : String) : List Char := s.data

/-- Left-pad a character list with `c` to width `w`
(Python format-spec fill/align `c>w`, and zero fill `0w` for nonnegative ints). -/
def padLeftChar (c : Char) (w : Nat) (l : List Char) : List Char :=
  List.replicate (w - l.length) c ++ l

/-- Decimal digit characters of `n`, most significant first
(Python `str(n)` for `n > 0`; empty for `n = 0`, which every use site
re-pads with `'0'`, matching `f"{0:06d}" = "000000"`). -/
def natToDec (n : Nat) : List Char := ((Nat.digits 10 n).reverse).map Nat.digitChar

/-- Lowercase hexadecimal digit characters of `n`, most significant first. -/
def natToHex (n : Nat) : List Char := ((Nat.digits 16 n).reverse).map Nat.digitChar

/-- Python `f"{v:0wd}"`: sign-aware zero-padded decimal of an int. -/
def pyFormatZeroPadDec (w : Nat) (v : ℤ) : List Char :=
  if v < 0 then '-' :: padLeftChar '0' (w - 1) (natToDec v.natAbs)
  else padLeftChar '0' w (natToDec v.toNat)

/-- Python `f"{n:0wx}"`: zero-padded lowercase hex of a nonnegative int. -/
def pyFormatZeroPadHex (w : Nat) (n : Nat) : List Char :=
  padLeftChar '0' w (natToHex n)

/-- Python `round` on a rational: round to nearest integer, ties to even
(banker's rounding). -/
def pyRound (q : ℚ) : ℤ :=
  let f : ℤ := ⌊q⌋
  let r : ℚ := q - f
  if r < 1/2 then f
  else if 1/2 < r then f + 1
  else if f % 2 = 0 then f else f + 1

/-- Python `round(q, 2)`: round to 2 decimal places (used for money). -/
def pyRound2 (q : ℚ) : ℚ := (pyRound (q * 100) : ℚ) / 100

/-- Python `x or 0` for an `int` `x`: identity (`0 or 0` is `0`). -/
def pyOrZero (x : ℤ) : ℤ := if x = 0 then 0 else x

/-- Whether a character is a hexadecimal digit (used to state the CRC
trailer property). -/
def isHexChar (c : Char) : Bool :=
  c.isDigit || ('a' ≤ c && c ≤ 'f') || ('A' ≤ c && c ≤ 'F')

/-- Numeric value of a hexadecimal digit character. -/
def hexCharVal (c : Char) : Nat :=
  if c.isDigit then c.toNat - '0'.toNat
  else if 'a' ≤ c && c ≤ 'f' then c.toNat - 'a'.toNat + 10
  else if 'A' ≤ c && c ≤ 'F' then c.toNat - 'A'.toNat + 10
  else 0

/-- Value of a big-endian string of hexadecimal digit characters
(independent recomputation of the checksum field). -/
def hexValue (l : List Char) : Nat :=
  l.foldl (fun a c => 16 * a + hexCharVal c) 0

/-! ### PromptPay payload encoder — `betta/services/payments.py`

```python
def _to_promptpay_amount(amount: float) -> str:
    #value = int(round(amount * 100))
    value = int(round(amount))
    return f"{value:06d}"

def _crc16(data: str) -> str:
    crc = 0xFFFF
    poly = 0x1021
    for char in data:
        crc ^= ord(char) << 8
        for _ in range(8):
            if crc & 0x8000:
                crc = (crc << 1) ^ poly
            else:
                crc <<= 1
            crc &= 0xFFFF
    return f"{crc:04x}"
```
-/

/-- One iteration of the inner `for _ in range(8)` loop of `_crc16`. -/
def crcShift (crc : Nat) : Nat :=
  (if crc &&& 0x8000 ≠ 0 then (crc <<< 1) ^^^ 0x1021 else crc <<< 1) &&& 0xFFFF

/-- Processing of one character of `_crc16`'s outer loop. -/
def crcChar (crc : Nat) (c : Char) : Nat :=
  crcShift^[8] (crc ^^^ (c.toNat <<< 8))

/-- The CRC register value computed by `_crc16` (before hex formatting). -/
def crc16val (data : List Char) : Nat := data.foldl crcChar 0xFFFF

/-- Function `_crc16`: the 4-hex-digit (lowercase) string returned to the caller. -/
def crc16hex (data : List Char) : List Char := pyFormatZeroPadHex 4 (crc16val data)

/-- Function `_to_promptpay_amount`: `int(round(amount))` formatted as `f"{value:06d}"`. -/
def toPromptpayAmount (amount : ℚ) : List Char :=
  pyFormatZeroPadDec 6 (pyRound amount)

/-- The `payload` local of `PromptPayPayload.encode`: header, AID,
payee id right-justified to 13 with `'0'` fill, country, currency, amount. -/
def encodePayload (promptpay_id : List Char) (amount : ℚ) : List Char :=
  s2l "000201010211" ++
  s2l "29370016A000000677010111" ++
  s2l "0113" ++ padLeftChar '0' 13 promptpay_id ++
  s2l "5802TH" ++
  s2l "5303764" ++
  s2l "5406" ++ toPromptpayAmount amount

/-- Method `PromptPayPayload.encode`: payload, trailer tag `"6304"`, then the
CRC of payload-plus-trailer uppercased. -/
def encode (promptpay_id : List Char) (amount : ℚ) : List Char :=
  let payload := encodePayload promptpay_id amount
  let crc := crc16hex (payload ++ s2l "6304")
  payload ++ s2l "6304" ++ crc.map Char.toUpper

/-! ### Coupons — `betta/models.py`, class `Coupon`

```python
def is_valid(self, subtotal: float, now: datetime | None = None) -> bool:
    now = now or datetime.utcnow()
    if not self.is_active:
        return False
    if self.start_at and now < self.start_at:
        return False
    if self.end_at and now > self.end_at:
        return False
    if self.min_subtotal and subtotal < self.min_subtotal:
        return False
    if self.max_uses and self.used_count >= self.max_uses:
        return False
    return True

def discount_amount(self, subtotal: float) -> float:
    if self.type == "percent":
        return subtotal * (self.value / 100)
    return min(self.value, subtotal)
```
-/

structure Coupon where
  /-- discount type: `"percent"` or fixed amount (any other string) -/
  type : String
  value : ℚ
  min_subtotal : Option ℚ
  max_uses : Option ℤ
  used_count : ℤ
  start_at : Option ℤ
  end_at : Option ℤ
  is_active : Bool
  deriving Repr

/-- Method `Coupon.is_valid`.  A `datetime` column is truthy iff non-`NULL`;
a `float`/`int` column is truthy iff non-`NULL` and nonzero. -/
def Coupon.is_valid (c : Coupon) (subtotal : ℚ) (now : ℤ) : Bool :=
  if !c.is_active then false
  else if c.start_at.elim false (fun s => decide (now < s)) then false
  else if c.end_at.elim false (fun e => decide (e < now)) then false
  else if c.min_subtotal.elim false (fun m => decide (m ≠ 0) && decide (subtotal < m)) then false
  else if c.max_uses.elim false (fun m => decide (m ≠ 0) && decide (c.used_count ≥ m)) then false
  else true

/-- Method `Coupon.discount_amount`. -/
def Coupon.discount_amount (c : Coupon) (subtotal : ℚ) : ℚ :=
  if c.type = "percent" then subtotal * (c.value / 100)
  else min c.value subtotal

/-! ### Variants, products and the stock ledger — `betta/models.py`

The `variants` and `products` tables are modelled as total maps from the
primary key.  Catalog fields not read by any modelled operation
(titles, descriptions, media, weight) are omitted. -/

structure VariantRec where
  product_id : Nat
  price : ℚ
  stock_qty : ℤ
  attributes_json : Option String
  deriving Repr

structure ProductRec where
  status : String
  deriving Repr

abbrev VMap := Nat → Option VariantRec
abbrev PMap := Nat → Option ProductRec

/-- Event listener `reduce_stock` (`after_insert` on `OrderItem`):
`UPDATE variants SET stock_qty = stock_qty - qty WHERE id = variant_id`,
guarded by `if target.qty:` (0 is falsy). -/
def reduce_stock (variants : VMap) (variant_id : Nat) (qty : ℤ) : VMap :=
  if qty ≠ 0 then
    fun i => if i = variant_id then (variants i).map (fun v => { v with stock_qty := v.stock_qty - qty }) else variants i
  else variants

/-- Event listener `restore_stock` (`after_delete` on `OrderItem`):
same update with `+ qty`. -/
def restore_stock (variants : VMap) (variant_id : Nat) (qty : ℤ) : VMap :=
  if qty ≠ 0 then
    fun i => if i = variant_id then (variants i).map (fun v => { v with stock_qty := v.stock_qty + qty }) else variants i
  else variants

/-! ### `Variant.attributes` — `betta/models.py`

```python
@property
def attributes(self) -> dict[str, Any]:
    if not self.attributes_json:
        return {}
    try:
        return json.loads(self.attributes_json)
    except json.JSONDecodeError:
        return {}
```

`json.loads` belongs to the Python standard library (an external
collaborator), so it is a parameter of the embedding: it either returns
a JSON value or raises `JSONDecodeError` (the `Except` error case). -/

inductive Json where
  | null
  | bool (b : Bool)
  | num (q : ℚ)
  | str (s : String)
  | arr (elems : List Json)
  | obj (fields : List (String × Json))

/-- The `Variant.attributes` property.  `not self.attributes_json` is
true for `NULL` and for the empty string. -/
def Variant.attributes (loads : String → Except String Json) :
    Option String → Json
  | none => Json.obj []
  | some s =>
    if s = "" then Json.obj []
    else
      match loads s with
      | .ok v => v
      | .error _ => Json.obj []

/-! ### Shipping quotes — `betta/services/shipping.py` -/

structure ShippingQuote where
  method : String
  fee : ℚ
  eta_days : ℤ
  international : Bool
  deriving Repr

/-- Function `calculate_domestic`: config base fee plus 0.5/gram above 500 g
(`if weight_grams and weight_grams > 500`, ints falsy at 0). -/
def calculate_domestic (base_fee : ℚ) (weight_grams : Option ℤ) : ShippingQuote :=
  let fee := base_fee +
    (match weight_grams with
     | some w => if w ≠ 0 ∧ 500 < w then ((w - 500 : ℤ) : ℚ) * (1/2) else 0
     | none => 0)
  { method := "Kerry Express", fee := pyRound2 fee, eta_days := 2, international := false }

/-- Function `calculate_international`: base fee plus 1.2/gram above 500 g.
(The binary-float rounding of the literal `1.2` is not modelled; the
surcharge branch is unreachable from `checkout`, which passes no weight.) -/
def calculate_international (base_fee : ℚ) (weight_grams : Option ℤ) : ShippingQuote :=
  let fee := base_fee +
    (match weight_grams with
     | some w => if w ≠ 0 ∧ 500 < w then ((w - 500 : ℤ) : ℚ) * (12/10) else 0
     | none => 0)
  { method := "DHL Express", fee := pyRound2 fee, eta_days := 7, international := true }

/-! ### Orders, payments, shipments -/

structure OrderItemRec where
  variant_id : Nat
  qty : ℤ
  unit_price : ℚ
  total_price : ℚ
  deriving Repr

structure PaymentRec where
  method : String
  ref : Option String
  amount : ℚ
  status : String
  paid_at : Option ℤ
  slip_url : Option String
  deriving Repr

structure ShipmentRec where
  carrier : Option String
  tracking_no : Option String
  status : Option String
  shipped_at : Option ℤ
  received_at : Option ℤ
  deriving Repr

structure OrderRec where
  order_no : String
  status : String
  payment_method : String
  subtotal : ℚ
  shipping_fee : ℚ
  discount : ℚ
  grand_total : ℚ
  currency : String
  items : List OrderItemRec
  payments : List PaymentRec
  shipment : Option ShipmentRec
  deriving Repr

/-! ### Checkout — `betta/blueprints/store.py`, `checkout` (POST branch)

The request-scoped transaction is modelled functionally: the handler
receives the committed database state and returns the state after the
final `db.session.commit()`; the `db.session.rollback()` branch on
`stripe.error.StripeError` returns the original state.  The outcome of
the external `create_stripe_payment_intent` call is an `Except`
parameter. -/

structure CartItemRec where
  variant_id : Nat
  qty : ℤ
  price_at : ℚ
  deriving Repr

/-- Property `CartItem.total_price`: `price_at * qty`. -/
def CartItemRec.total_price (ci : CartItemRec) : ℚ := ci.price_at * (ci.qty : ℚ)

/-- Method `Cart.total()`: sum of item total prices. -/
def cartTotal (items : List CartItemRec) : ℚ := (items.map CartItemRec.total_price).sum

structure StoreDb where
  variants : VMap
  coupons : String → Option Coupon
  orders : List OrderRec
  cartItems : List CartItemRec

/-- The remote payment-provider transaction handle
(`stripe.PaymentIntent`); `status`/`amount` read via `getattr`. -/
structure StripeIntent where
  id : String
  status : Option String
  amount : Option ℤ
  deriving Repr

structure CheckoutForm where
  country : String
  coupon : Option String
  payment_method : String
  deriving Repr

inductive CheckoutOutcome where
  | emptyCart
  | stripeFailure
  | success (couponWarned : Bool)
  deriving Repr, DecidableEq

/-- The `checkout` POST handler.  `domestic_base` / `intl_base` are the
`DEFAULT_SHIPPING_*` config values, `order_no` the generated
`"BT..."` number, `now` the request time, `stripeResult` the outcome of
the remote transaction-creation call (consulted only for
`payment_method == "stripe"`). -/
def checkout (db : StoreDb) (form : CheckoutForm)
    (domestic_base intl_base : ℚ) (order_no : String) (now : ℤ)
    (stripeResult : Except Unit StripeIntent) : StoreDb × CheckoutOutcome :=
  if db.cartItems.isEmpty then (db, .emptyCart)
  else
    let subtotal := cartTotal db.cartItems
    let quote :=
      if form.country.toUpper = "TH" then calculate_domestic domestic_base none
      else calculate_international intl_base none
    -- coupon resolution: `coupon` is bound to the query result whenever the
    -- code is truthy and found, even if invalid (only `discount` is gated
    -- on validity); an invalid/unknown coupon flashes a warning.
    let couponRes : ℚ × Option String × Bool :=
      match form.coupon with
      | none => (0, none, false)
      | some code =>
        if code = "" then (0, none, false)
        else
          match db.coupons code with
          | none => (0, none, true)
          | some cpn =>
            if cpn.is_valid subtotal now then (cpn.discount_amount subtotal, some code, false)
            else (0, some code, true)
    let discount := couponRes.1
    let foundCoupon := couponRes.2.1
    let warned := couponRes.2.2
    -- OrderItem snapshot inserts; each insert fires `reduce_stock`
    let variants' := db.cartItems.foldl (fun vs ci => reduce_stock vs ci.variant_id ci.qty) db.variants
    let orderItems : List OrderItemRec :=
      db.cartItems.map (fun ci =>
        { variant_id := ci.variant_id, qty := ci.qty,
          unit_price := ci.price_at, total_price := ci.total_price })
    -- order.update_totals()
    let subtotal' := (orderItems.map OrderItemRec.total_price).sum
    let grand := subtotal' + quote.fee - discount
    let payment0 : PaymentRec :=
      { method := form.payment_method, ref := none, amount := grand,
        status := "init", paid_at := none, slip_url := none }
    -- everything after the stripe block: coupon counter bump, cart clear,
    -- and the single `db.session.commit()`
    let commit := fun (payment : PaymentRec) =>
      let order : OrderRec :=
        { order_no := order_no, status := "pending",
          payment_method := form.payment_method,
          subtotal := subtotal', shipping_fee := quote.fee,
          discount := discount, grand_total := grand,
          currency := if form.country.toUpper = "TH" then "THB" else "USD",
          items := orderItems, payments := [payment], shipment := none }
      let coupons' :=
        match foundCoupon with
        | some code => fun k =>
            if k = code then (db.coupons k).map (fun c => { c with used_count := c.used_count + 1 })
            else db.coupons k
        | none => db.coupons
      ({ variants := variants', coupons := coupons',
         orders := db.orders ++ [order], cartItems := [] },
       CheckoutOutcome.success warned)
    if form.payment_method = "stripe" then
      match stripeResult with
      | .error _ => (db, .stripeFailure)   -- db.session.rollback(); flash error
      | .ok intent =>
        -- payment.ref / payment.status (`or` keeps "init" for None/"") /
        -- payment.amount reconciliation from minor units
        let payment1 :=
          { payment0 with
            ref := some intent.id,
            status := intent.status.elim payment0.status
              (fun st => if st = "" then payment0.status else st),
            amount := intent.amount.elim payment0.amount
              (fun a => pyRound2 ((a : ℚ) / 100)) }
        commit payment1
    else commit payment0

/-! ### Admin order operations — `betta/blueprints/admin.py` -/

structure AdminDb where
  variants : VMap
  products : PMap
  order : OrderRec

inductive AdminMsg where
  | success
  | info
  | warning
  | error
  deriving Repr, DecidableEq

/-- Handler `confirm_payment`: unconditionally mark the latest Payment confirmed
(creating a `transfer` Payment for the grand total when none exists) and
set the Order status to `"paid"`.  There is no guard on the current
order status. -/
def confirm_payment (db : AdminDb) (now : ℤ) : AdminDb :=
  let order := db.order
  let payments' :=
    match order.payments.getLast? with
    | some last => order.payments.dropLast ++ [{ last with status := "confirmed", paid_at := some now }]
    | none => [{ method := "transfer", ref := none, amount := order.grand_total,
                 status := "confirmed", paid_at := some now, slip_url := none }]
  { db with order := { order with payments := payments', status := "paid" } }

/-- One iteration of `cancel_order`'s restock loop: skip when the
variant relationship is unresolved, otherwise return the quantity to
stock and reactivate the parent product if it is not active. -/
def restockItem (vs : VMap) (ps : PMap) (item : OrderItemRec) : VMap × PMap :=
  match vs item.variant_id with
  | none => (vs, ps)   -- `if not variant: continue`
  | some v =>
    let vs' : VMap := fun i =>
      if i = item.variant_id then some { v with stock_qty := pyOrZero v.stock_qty + item.qty }
      else vs i
    let ps' : PMap :=
      match ps v.product_id with
      | some p =>
        if p.status ≠ "active" then
          fun j => if j = v.product_id then some { p with status := "active" } else ps j
        else ps
      | none => ps
    (vs', ps')

/-- The restock loop over the order's items. -/
def restockFold : List OrderItemRec → VMap → PMap → VMap × PMap
  | [], vs, ps => (vs, ps)
  | it :: rest, vs, ps =>
    let step := restockItem vs ps it
    restockFold rest step.1 step.2

/-- One iteration of `cancel_order`'s damaged loop: clamp negative stock
to zero (`if variant and variant.stock_qty < 0`). -/
def damagedItem (vs : VMap) (item : OrderItemRec) : VMap :=
  match vs item.variant_id with
  | none => vs
  | some v =>
    if v.stock_qty < 0 then
      fun i => if i = item.variant_id then some { v with stock_qty := 0 } else vs i
    else vs

/-- Handler `cancel_order`: no-op (informational) when already canceled; reject
unknown actions; otherwise run the restock or damaged loop, cancel every
payment (clearing `paid_at`), cancel the shipment if present (clearing
its timestamps), and set the order status. -/
def cancel_order (db : AdminDb) (action : String) : AdminDb × AdminMsg :=
  if db.order.status = "canceled" ∨ db.order.status = "canceled_damaged" then (db, .info)
  else
    if ¬(action = "restock") ∧ ¬(action = "damaged") then (db, .error)
    else
      let restock := action = "restock"
      let tables :=
        if restock then restockFold db.order.items db.variants db.products
        else (db.order.items.foldl damagedItem db.variants, db.products)
      let payments' := db.order.payments.map (fun p => { p with status := "canceled", paid_at := none })
      let shipment' := db.order.shipment.map
        (fun s => { s with status := some "canceled", shipped_at := none, received_at := none })
      let order' :=
        { db.order with
          status := if restock then "canceled" else "canceled_damaged",
          payments := payments', shipment := shipment' }
      ({ variants := tables.1, products := tables.2, order := order' },
       if restock then AdminMsg.success else AdminMsg.warning)

/-- Total quantity of the order items that reference variant `i`
(specification device for the restock theorem). -/
def itemsQtyFor (items : List OrderItemRec) (i : Nat) : ℤ :=
  ((items.filter (fun it => it.variant_id = i)).map OrderItemRec.qty).sum

/-! ### Sample records (used by concrete witnesses) -/

/-- A one-variant catalog: variant 1 (product 7, price 100, stock 5). -/
def sampleVariants : VMap :=
  fun i => if i = 1 then some { product_id := 7, price := 100, stock_qty := 5, attributes_json := none } else none

def sampleProducts : PMap :=
  fun j => if j = 7 then some { status := "inactive" } else none

def samplePayment : PaymentRec :=
  { method := "promptpay", ref := none, amount := 250, status := "init", paid_at := some 9, slip_url := none }

def sampleShipment : ShipmentRec :=
  { carrier := some "Kerry Express", tracking_no := some "KR20240101-00001",
    status := some "shipped", shipped_at := some 5, received_at := none }

def sampleOrder : OrderRec :=
  { order_no := "BT20240101000000123", status := "pending", payment_method := "promptpay",
    subtotal := 100, shipping_fee := 150, discount := 0, grand_total := 250, currency := "THB",
    items := [{ variant_id := 1, qty := 1, unit_price := 100, total_price := 100 }],
    payments := [samplePayment], shipment := some sampleShipment }

def sampleAdminDb : AdminDb :=
  { variants := sampleVariants, products := sampleProducts, order := sampleOrder }

/-- A stand-in for `json.loads` with one failing document. -/
def sampleLoads : String → Except String Json :=
  fun s => if s = "" ∨ s = "bad" then Except.error "invalid" else Except.ok (Json.str s)

/-- A one-item cart over the sample catalog, about to pay by card. -/
def sampleStoreDb : StoreDb :=
  { variants := sampleVariants, coupons := fun _ => none, orders := [],
    cartItems := [{ variant_id := 1, qty := 1, price_at := 100 }] }

def sampleStripeForm : CheckoutForm :=
  { country := "TH", coupon := none, payment_method := "stripe" }

/-- All the tag-length-value fields of `encode`'s payload that precede
the tag-54 amount value. -/
def promptpayFieldsBeforeAmount (promptpay_id : List Char) : List Char :=
  s2l "000201010211" ++
  s2l "29370016A000000677010111" ++
  s2l "0113" ++ padLeftChar '0' 13 promptpay_id ++
  s2l "5802TH" ++
  s2l "5303764" ++
  s2l "5406"

end Betta

namespace Betta

/-! ## Helper lemmas -/

theorem pyOrZero_eq (x : ℤ) : pyOrZero x = x := by
  unfold pyOrZero; split <;> simp_all

/-! ## Claim C1 — discount never exceeds subtotal -/

/-- C1 counterexample: a percentage coupon with `value = 200` discounts
200 off a subtotal of 100, so `discount_amount(subtotal) ≤ subtotal`
fails as stated. -/
theorem discount_amount_gt_subtotal_cex :
    Coupon.discount_amount
      { type := "percent", value := 200, min_subtotal := none, max_uses := none,
        used_count := 0, start_at := none, end_at := none, is_active := true } 100 = 200 ∧
    ¬ (Coupon.discount_amount
      { type := "percent", value := 200, min_subtotal := none, max_uses := none,
        used_count := 0, start_at := none, end_at := none, is_active := true } 100 ≤ 100) := by
  constructor
  · unfold Coupon.discount_amount; norm_num
  · unfold Coupon.discount_amount; norm_num

/-- C1 amended: `discount_amount(subtotal) ≤ subtotal` holds for every
fixed-type coupon, and for a percentage coupon whenever its value is at
most 100 and the subtotal is nonnegative. -/
theorem discount_amount_le_subtotal (c : Coupon) (subtotal : ℚ)
    (h : c.type = "percent" → 0 ≤ subtotal ∧ c.value ≤ 100) :
    c.discount_amount subtotal ≤ subtotal := by
  unfold Coupon.discount_amount
  by_cases hp : c.type = "percent"
  · obtain ⟨hs, hv⟩ := h hp
    rw [if_pos hp]
    have h1 : c.value / 100 ≤ 1 := by linarith
    calc subtotal * (c.value / 100) ≤ subtotal * 1 := by
          exact mul_le_mul_of_nonneg_left h1 hs
      _ = subtotal := mul_one subtotal
  · rw [if_neg hp]
    exact min_le_right _ _

/-- C1 witness: a fixed coupon of value 500 on subtotal 50 discounts at
most 50. -/
theorem discount_amount_le_subtotal_witness :
    Coupon.discount_amount
      { type := "fixed", value := 500, min_subtotal := none, max_uses := none,
        used_count := 0, start_at := none, end_at := none, is_active := true } 50 ≤ 50 :=
  discount_amount_le_subtotal _ 50 (by intro hp; exact absurd hp (by decide))

/-! ## Claim C3 — usage cap invalidates the coupon -/

/-- C3 counterexample: with `max_uses = 0` (a cap of 0) and
`used_count = 0 ≥ 0`, the claim demands `is_valid = false`, but
`if self.max_uses and ...` skips the cap check for the falsy int `0`
and the coupon validates. -/
theorem is_valid_cap_zero_cex :
    Coupon.is_valid
      { type := "percent", value := 10, min_subtotal := none, max_uses := some 0,
        used_count := 0, start_at := none, end_at := none, is_active := true } 0 0 = true := by
  decide

/-- C3 amended: if the usage cap is set and nonzero and `used_count` is
at or over it, `is_valid` returns false for every subtotal and time;
a cap of 0 is treated as unset (Python falsiness) and never blocks. -/
theorem is_valid_false_at_cap (c : Coupon) (subtotal : ℚ) (now : ℤ) (m : ℤ)
    (hmax : c.max_uses = some m) (hm : m ≠ 0) (hused : m ≤ c.used_count) :
    c.is_valid subtotal now = false := by
  unfold Coupon.is_valid
  rw [hmax]
  split
  · rfl
  split
  · rfl
  split
  · rfl
  split
  · rfl
  split
  · rfl
  · rename_i hcond
    exfalso
    apply hcond
    simp only [Option.elim, Bool.and_eq_true, decide_eq_true_eq]
    exact ⟨hm, hused⟩

/-- C3 witness: an active, windowless coupon with cap 2 and
`used_count = 2` is invalid. -/
theorem is_valid_false_at_cap_witness :
    Coupon.is_valid
      { type := "percent", value := 10, min_subtotal := none, max_uses := some 2,
        used_count := 2, start_at := none, end_at := none, is_active := true } 100 5 = false :=
  is_valid_false_at_cap _ 100 5 2 rfl (by decide) (by decide)

/-! ## Claim C5 — stock-ledger round trip -/

/-- C5: inserting an `OrderItem` of quantity `qty` referencing variant
`vid` drops that variant's `stock_qty` by `qty`; deleting one raises it
by `qty`; insert-then-delete restores the original row. -/
theorem stock_ledger_round_trip (variants : VMap) (vid : Nat) (qty : ℤ)
    (v : VariantRec) (h : variants vid = some v) :
    reduce_stock variants vid qty vid = some { v with stock_qty := v.stock_qty - qty } ∧
    restore_stock variants vid qty vid = some { v with stock_qty := v.stock_qty + qty } ∧
    restore_stock (reduce_stock variants vid qty) vid qty vid = some v := by
  unfold reduce_stock restore_stock
  by_cases hq : qty = 0
  · subst hq
    simp [h]
  · simp only [ne_eq, hq, not_false_eq_true, if_true, if_pos, h]
    refine ⟨rfl, rfl, ?_⟩
    simp [Option.map, sub_add_cancel]

/-- C5 witness: variant 1 with stock 5, quantity 3 — stock becomes 2 on
insert, returns to 5 on delete. -/
theorem stock_ledger_round_trip_witness :
    reduce_stock sampleVariants 1 3 1 =
      some { product_id := 7, price := 100, stock_qty := 2, attributes_json := none } ∧
    restore_stock sampleVariants 1 3 1 =
      some { product_id := 7, price := 100, stock_qty := 8, attributes_json := none } ∧
    restore_stock (reduce_stock sampleVariants 1 3) 1 3 1 =
      some { product_id := 7, price := 100, stock_qty := 5, attributes_json := none } :=
  stock_ledger_round_trip sampleVariants 1 3 _ rfl

/-! ## Claim C8 — canceling an already-canceled order is a no-op -/

/-- C8: when the order status is already `"canceled"` or
`"canceled_damaged"`, `cancel_order` returns the database unchanged with
an informational message, for every action value. -/
theorem cancel_order_idempotent (db : AdminDb) (action : String)
    (h : db.order.status = "canceled" ∨ db.order.status = "canceled_damaged") :
    cancel_order db action = (db, AdminMsg.info) := by
  unfold cancel_order
  rw [if_pos h]

/-- C8 witness: a canceled sample order stays untouched under a
`"damaged"` cancel request. -/
theorem cancel_order_idempotent_witness :
    cancel_order { sampleAdminDb with order := { sampleOrder with status := "canceled" } } "damaged" =
      ({ sampleAdminDb with order := { sampleOrder with status := "canceled" } }, AdminMsg.info) :=
  cancel_order_idempotent _ "damaged" (Or.inl rfl)

/-! ## Claim C10 — `Variant.attributes` is total -/

/-- C10: the `attributes` property never raises: it returns the empty
map for a `NULL` or empty `attributes_json`, the empty map when
`json.loads` fails, and the parsed value otherwise. -/
theorem variant_attributes_total (loads : String → Except String Json)
    (s₁ s₂ : String) (e : String) (v : Json)
    (h1 : loads s₁ = Except.error e) (h2 : loads s₂ = Except.ok v) (h3 : s₂ ≠ "") :
    Variant.attributes loads none = Json.obj [] ∧
    Variant.attributes loads (some "") = Json.obj [] ∧
    Variant.attributes loads (some s₁) = Json.obj [] ∧
    Variant.attributes loads (some s₂) = v := by
  refine ⟨rfl, rfl, ?_, ?_⟩
  · simp only [Variant.attributes]
    by_cases hs : s₁ = ""
    · rw [if_pos hs]
    · rw [if_neg hs, h1]
  · simp only [Variant.attributes]
    rw [if_neg h3, h2]

/-- C10 witness: with the concrete stand-in parser, all four cases
evaluate as claimed. -/
theorem variant_attributes_total_witness :
    Variant.attributes sampleLoads none = Json.obj [] ∧
    Variant.attributes sampleLoads (some "") = Json.obj [] ∧
    Variant.attributes sampleLoads (some "bad") = Json.obj [] ∧
    Variant.attributes sampleLoads (some "ok") = Json.str "ok" :=
  variant_attributes_total sampleLoads "bad" "ok" "invalid" (Json.str "ok") rfl rfl (by decide)

/-! ## Claim C9 — admin payment confirmation has no status guard -/

/-- C9: for every database state — whatever the order's current status,
including `"shipped"`, `"canceled"` and `"canceled_damaged"` — the
manual confirmation sets the order status to `"paid"` and replaces the
last payment (or, when none exists, the default `"transfer"` payment
for the grand total) by one with status `"confirmed"` and a paid
timestamp. -/
theorem confirm_payment_unconditional (db : AdminDb) (now : ℤ) :
    (confirm_payment db now).order.status = "paid" ∧
    (confirm_payment db now).order.payments =
      db.order.payments.dropLast ++
        [{ db.order.payments.getLastD
             { method := "transfer", ref := none, amount := db.order.grand_total,
               status := "init", paid_at := none, slip_url := none } with
           status := "confirmed", paid_at := some now }] ∧
    (confirm_payment db now).variants = db.variants ∧
    (confirm_payment db now).products = db.products := by
  unfold confirm_payment
  rcases h : db.order.payments.getLast? with _ | last
  · have hnil : db.order.payments = [] := List.getLast?_eq_none_iff.mp h
    simp [h, hnil, List.getLastD_eq_getLast?]
  · simp [h, List.getLastD_eq_getLast?]

/-! ## Claim C4 — remote payment failure rolls back the checkout -/

/-- C4: when the payment method is the card provider and the remote
transaction-creation call fails, `checkout` returns the committed
database unchanged — no order, no order items, no stock decrement, no
coupon counter bump, and the cart intact — together with the failure
outcome shown to the caller. -/
theorem checkout_stripe_failure_rolls_back (db : StoreDb) (form : CheckoutForm)
    (domestic_base intl_base : ℚ) (order_no : String) (now : ℤ)
    (hcart : db.cartItems ≠ [])
    (hmethod : form.payment_method = "stripe") :
    checkout db form domestic_base intl_base order_no now (Except.error ()) =
      (db, CheckoutOutcome.stripeFailure) := by
  have hne : db.cartItems.isEmpty = false := by
    rw [List.isEmpty_eq_false]; exact hcart
  unfold checkout
  simp [hne, hmethod]

/-- C4 witness: the concrete one-item stripe checkout with a failing
remote call leaves the database exactly as it was. -/
theorem checkout_stripe_failure_rolls_back_witness :
    checkout sampleStoreDb sampleStripeForm 150 650 "BT20240101000000123" 0 (Except.error ()) =
      (sampleStoreDb, CheckoutOutcome.stripeFailure) :=
  checkout_stripe_failure_rolls_back sampleStoreDb sampleStripeForm 150 650 _ 0
    (List.cons_ne_nil _ _) rfl

/-! ## Claim C2 — the PromptPay amount field rounds, it does not floor -/

/-- Python `round` lands within half a unit of its argument. -/
theorem pyRound_bounds (q : ℚ) :
    q - 1/2 ≤ (pyRound q : ℚ) ∧ (pyRound q : ℚ) ≤ q + 1/2 := by
  have h1 : (⌊q⌋ : ℚ) ≤ q := Int.floor_le q
  have h2 : q < ⌊q⌋ + 1 := Int.lt_floor_add_one q
  simp only [pyRound]
  split_ifs <;> constructor <;> push_cast <;> linarith

theorem pyRound_nonneg (q : ℚ) (h : 0 ≤ q) : 0 ≤ pyRound q := by
  have hf : 0 ≤ ⌊q⌋ := Int.floor_nonneg.mpr h
  simp only [pyRound]
  split_ifs <;> omega

/-- C2 counterexample: the claim says an amount of 10.6 encodes as the
floored `"000010"`; the code computes `int(round(10.6)) = 11` and emits
`"000011"`. -/
theorem promptpay_amount_floor_cex :
    toPromptpayAmount ((106 : ℚ) / 10) = s2l "000011" ∧
    padLeftChar '0' 6 (natToDec (⌊(106 : ℚ) / 10⌋).toNat) = s2l "000010" ∧
    toPromptpayAmount ((106 : ℚ) / 10) ≠
      padLeftChar '0' 6 (natToDec (⌊(106 : ℚ) / 10⌋).toNat) := by
  have hfloor : ⌊(106 : ℚ) / 10⌋ = 10 := by
    rw [Int.floor_eq_iff]
    norm_num
  have hround : pyRound ((106 : ℚ) / 10) = 11 := by
    simp only [pyRound, hfloor]
    norm_num
  have h11 : toPromptpayAmount ((106 : ℚ) / 10) = s2l "000011" := by
    have hd : Nat.digits 10 11 = [1, 1] := by norm_num
    unfold toPromptpayAmount pyFormatZeroPadDec natToDec
    rw [hround, if_neg (by norm_num), show ((11 : ℤ).toNat) = 11 from rfl, hd]
    decide
  have h10 : padLeftChar '0' 6 (natToDec (⌊(106 : ℚ) / 10⌋).toNat) = s2l "000010" := by
    have hd : Nat.digits 10 10 = [0, 1] := by norm_num
    unfold natToDec
    rw [hfloor, show ((10 : ℤ).toNat) = 10 from rfl, hd]
    decide
  refine ⟨h11, h10, ?_⟩
  rw [h11, h10]
  decide

/-- C2 amended: for every nonnegative amount, the tag-54 field of the
payload is the 6-wide zero-padded decimal of the amount rounded to the
nearest whole currency unit (Python `round`, ties to even) — within half
a unit of the amount — not the amount truncated. -/
theorem promptpay_amount_field_rounds (pid : List Char) (q : ℚ) (h : 0 ≤ q) :
    toPromptpayAmount q = padLeftChar '0' 6 (natToDec (pyRound q).toNat) ∧
    encodePayload pid q = promptpayFieldsBeforeAmount pid ++ padLeftChar '0' 6 (natToDec (pyRound q).toNat) ∧
    q - 1/2 ≤ ((pyRound q).toNat : ℚ) ∧ ((pyRound q).toNat : ℚ) ≤ q + 1/2 := by
  have h0 : 0 ≤ pyRound q := pyRound_nonneg q h
  have hb := pyRound_bounds q
  have hcast : (((pyRound q).toNat : ℕ) : ℚ) = (pyRound q : ℚ) := by
    rw [← Int.cast_natCast, Int.toNat_of_nonneg h0]
  have hform : toPromptpayAmount q = padLeftChar '0' 6 (natToDec (pyRound q).toNat) := by
    unfold toPromptpayAmount pyFormatZeroPadDec
    rw [if_neg (by omega)]
  refine ⟨hform, ?_, ?_, ?_⟩
  · unfold encodePayload promptpayFieldsBeforeAmount
    rw [hform]
  · rw [hcast]; exact hb.1
  · rw [hcast]; exact hb.2

/-- C2 witness: at amount 10.6 the amount lies within half a unit and
the field is `"000011"`. -/
theorem promptpay_amount_field_rounds_witness :
    toPromptpayAmount ((106 : ℚ) / 10) =
      padLeftChar '0' 6 (natToDec (pyRound ((106 : ℚ) / 10)).toNat) ∧
    encodePayload (s2l "0812345678") ((106 : ℚ) / 10) =
      promptpayFieldsBeforeAmount (s2l "0812345678") ++
        padLeftChar '0' 6 (natToDec (pyRound ((106 : ℚ) / 10)).toNat) ∧
    (106 : ℚ) / 10 - 1/2 ≤ ((pyRound ((106 : ℚ) / 10)).toNat : ℚ) ∧
    ((pyRound ((106 : ℚ) / 10)).toNat : ℚ) ≤ (106 : ℚ) / 10 + 1/2 :=
  promptpay_amount_field_rounds (s2l "0812345678") ((106 : ℚ) / 10) (by norm_num)

/-! ## Claim C6 — the encoder output ends in its own CRC -/

/-- Each inner-loop step of `_crc16` masks the register to 16 bits. -/
theorem crcShift_lt (x : Nat) : crcShift x < 65536 :=
  Nat.lt_succ_of_le Nat.and_le_right

/-- After the 8 inner-loop steps, the register fits in 16 bits. -/
theorem crcChar_lt (crc : Nat) (c : Char) : crcChar crc c < 65536 := by
  unfold crcChar
  rw [show (8 : ℕ) = 7 + 1 from rfl, Function.iterate_succ_apply']
  exact crcShift_lt _

theorem crc16val_lt (data : List Char) : crc16val data < 65536 := by
  have h : ∀ (l : List Char) (init : Nat), init < 65536 →
      List.foldl crcChar init l < 65536 := by
    intro l
    induction l with
    | nil => intro init hi; simpa using hi
    | cons c t ih => intro init _; exact ih _ (crcChar_lt _ _)
  exact h data 0xFFFF (by norm_num)

theorem hexValue_foldl_init (l : List Char) : ∀ init : Nat,
    List.foldl (fun a c => 16 * a + hexCharVal c) init l =
      init * 16 ^ l.length + List.foldl (fun a c => 16 * a + hexCharVal c) 0 l := by
  induction l with
  | nil => intro init; simp
  | cons c t ih =>
    intro init
    simp only [List.foldl_cons, List.length_cons]
    rw [ih (16 * init + hexCharVal c), ih (16 * 0 + hexCharVal c)]
    ring

theorem hexValue_append (a b : List Char) :
    hexValue (a ++ b) = hexValue a * 16 ^ b.length + hexValue b := by
  unfold hexValue
  rw [List.foldl_append, hexValue_foldl_init b]

theorem hexValue_replicate_zero (m : Nat) : hexValue (List.replicate m '0') = 0 := by
  induction m with
  | zero => rfl
  | succ n ih =>
    unfold hexValue at ih ⊢
    simp only [List.replicate_succ, List.foldl_cons]
    rw [show (16 * 0 + hexCharVal '0') = 0 from by decide]
    exact ih

theorem hexCharVal_upper_digitChar :
    ∀ d : Nat, d < 16 → hexCharVal (Char.toUpper (Nat.digitChar d)) = d := by decide

theorem isHexChar_upper_digitChar :
    ∀ d : Nat, d < 16 → isHexChar (Char.toUpper (Nat.digitChar d)) = true := by decide

/-- Reading back an uppercased most-significant-first hex digit string
recovers the number. -/
theorem hexValue_upper_digits (ds : List Nat) (h : ∀ d ∈ ds, d < 16) :
    hexValue ((ds.reverse).map (fun d => Char.toUpper (Nat.digitChar d))) =
      Nat.ofDigits 16 ds := by
  induction ds with
  | nil => rfl
  | cons d t ih =>
    have hd : d < 16 := h d (by simp)
    have ht : ∀ x ∈ t, x < 16 := fun x hx => h x (by simp [hx])
    simp only [List.reverse_cons, List.map_append, List.map_cons, List.map_nil]
    rw [hexValue_append, ih ht]
    have h1 : hexValue [Char.toUpper (Nat.digitChar d)] = d := by
      unfold hexValue
      simp only [List.foldl_cons, List.foldl_nil]
      rw [hexCharVal_upper_digitChar d hd]
      omega
    rw [h1, Nat.ofDigits_cons]
    simp only [List.length_cons, List.length_nil, pow_one]
    ring

theorem digits16_length_le_four (v : Nat) (h : v < 65536) :
    (Nat.digits 16 v).length ≤ 4 := by
  rcases Nat.eq_zero_or_pos v with h0 | hpos
  · subst h0; simp
  · rw [Nat.digits_len 16 v (by norm_num) hpos.ne']
    have hlog : Nat.log 16 v < 4 :=
      (Nat.lt_pow_iff_log_lt (by norm_num) hpos.ne').mp (by norm_num; omega)
    omega

/-- C6: the string returned by `encode` ends in exactly 4 hexadecimal
characters whose value is the CRC-16/CCITT-FALSE checksum of all the
preceding characters, which themselves end in the trailer tag `"6304"`. -/
theorem encode_ends_in_crc (pid : List Char) (amt : ℚ) :
    4 ≤ (encode pid amt).length ∧
    (∀ c ∈ (encode pid amt).drop ((encode pid amt).length - 4), isHexChar c = true) ∧
    hexValue ((encode pid amt).drop ((encode pid amt).length - 4)) =
      crc16val ((encode pid amt).take ((encode pid amt).length - 4)) ∧
    s2l "6304" <:+ (encode pid amt).take ((encode pid amt).length - 4) := by
  have hEnc : encode pid amt =
      (encodePayload pid amt ++ s2l "6304") ++
        (crc16hex (encodePayload pid amt ++ s2l "6304")).map Char.toUpper := rfl
  set B := encodePayload pid amt ++ s2l "6304" with hBdef
  set H := (crc16hex B).map Char.toUpper with hHdef
  have hvlt : crc16val B < 65536 := crc16val_lt B
  have hdiglen : (Nat.digits 16 (crc16val B)).length ≤ 4 :=
    digits16_length_le_four _ hvlt
  have hexpand : H = List.replicate (4 - (natToHex (crc16val B)).length) '0' ++
      (Nat.digits 16 (crc16val B)).reverse.map (fun d => Char.toUpper (Nat.digitChar d)) := by
    rw [hHdef]
    unfold crc16hex pyFormatZeroPadHex padLeftChar
    rw [List.map_append, List.map_replicate]
    congr 1
    unfold natToHex
    rw [List.map_map]
    rfl
  have hnatlen : (natToHex (crc16val B)).length = (Nat.digits 16 (crc16val B)).length := by
    unfold natToHex
    rw [List.length_map, List.length_reverse]
  have hHlen : H.length = 4 := by
    rw [hexpand, List.length_append, List.length_replicate, List.length_map,
      List.length_reverse, hnatlen]
    omega
  have houtlen : (encode pid amt).length = B.length + 4 := by
    rw [hEnc, List.length_append, hHlen]
  have hk : (encode pid amt).length - 4 = B.length := by omega
  have htake : (encode pid amt).take ((encode pid amt).length - 4) = B := by
    rw [hk, hEnc]
    exact List.take_left _ _
  have hdrop : (encode pid amt).drop ((encode pid amt).length - 4) = H := by
    rw [hk, hEnc]
    exact List.drop_left _ _
  refine ⟨by omega, ?_, ?_, ?_⟩
  · rw [hdrop, hexpand]
    intro c hc
    rcases List.mem_append.mp hc with hrep | hmap
    · rw [List.eq_of_mem_replicate hrep]
      decide
    · rcases List.mem_map.mp hmap with ⟨d, hd, rfl⟩
      exact isHexChar_upper_digitChar d
        (Nat.digits_lt_base (by norm_num) (List.mem_reverse.mp hd))
  · rw [hdrop, htake, hexpand, hexValue_append, hexValue_replicate_zero,
      hexValue_upper_digits _ (fun d hd => Nat.digits_lt_base (by norm_num) hd),
      Nat.ofDigits_digits]
    ring
  · rw [htake, hBdef]
    exact ⟨encodePayload pid amt, rfl⟩

/-! ## Claim C7 — restock cancellation -/

/-- Through the restock loop, a variant present in the table gains
exactly the summed quantity of the order items that reference it. -/
theorem restockFold_variants (items : List OrderItemRec) :
    ∀ (vs : VMap) (ps : PMap) (i : Nat) (v : VariantRec), vs i = some v →
      (restockFold items vs ps).1 i =
        some { v with stock_qty := v.stock_qty + itemsQtyFor items i } := by
  induction items with
  | nil =>
    intro vs ps i v hv
    simp [restockFold, itemsQtyFor, hv]
  | cons it rest ih =>
    intro vs ps i v hv
    unfold restockFold
    cases hvs : vs it.variant_id with
    | none =>
      have hne : ¬(it.variant_id = i) := by
        intro he; rw [he, hv] at hvs; cases hvs
      have hstep : restockItem vs ps it = (vs, ps) := by
        simp only [restockItem, hvs]
      have hqty : itemsQtyFor (it :: rest) i = itemsQtyFor rest i := by
        unfold itemsQtyFor
        rw [List.filter_cons, if_neg (by simpa using hne)]
      rw [hstep, hqty]
      exact ih vs ps i v hv
    | some w =>
      have hstep1 : (restockItem vs ps it).1 = fun j =>
          if j = it.variant_id then some { w with stock_qty := pyOrZero w.stock_qty + it.qty }
          else vs j := by
        simp only [restockItem, hvs]
      show (restockFold rest (restockItem vs ps it).1 (restockItem vs ps it).2).1 i = _
      by_cases hi : i = it.variant_id
      · have hwv : w = v := by
          rw [← hi, hv] at hvs
          exact (Option.some_inj.mp hvs).symm
        have hstep1i : (restockItem vs ps it).1 i =
            some { v with stock_qty := v.stock_qty + it.qty } := by
          simp [hstep1, hi, hwv, pyOrZero_eq]
        rw [ih (restockItem vs ps it).1 (restockItem vs ps it).2 i
          { v with stock_qty := v.stock_qty + it.qty } hstep1i]
        have hqty : itemsQtyFor (it :: rest) i = it.qty + itemsQtyFor rest i := by
          unfold itemsQtyFor
          rw [List.filter_cons, if_pos (by simpa using hi.symm), List.map_cons, List.sum_cons]
        rw [hqty]
        congr 1
        simp [add_assoc]
      · have hstep1i : (restockItem vs ps it).1 i = some v := by
          rw [hstep1]
          simp only [if_neg hi]
          exact hv
        rw [ih (restockItem vs ps it).1 (restockItem vs ps it).2 i v hstep1i]
        have hqty : itemsQtyFor (it :: rest) i = itemsQtyFor rest i := by
          unfold itemsQtyFor
          rw [List.filter_cons, if_neg (by simpa using fun he => hi (he.symm))]
        rw [hqty]


/-- Once a product is active, the restock loop leaves its row alone. -/
theorem restockFold_products_active (items : List OrderItemRec) :
    ∀ (vs : VMap) (ps : PMap) (j : Nat) (p : ProductRec),
      ps j = some p → p.status = "active" →
      (restockFold items vs ps).2 j = some p := by
  induction items with
  | nil =>
    intro vs ps j p hp _
    simpa [restockFold] using hp
  | cons it rest ih =>
    intro vs ps j p hp hact
    unfold restockFold
    show (restockFold rest (restockItem vs ps it).1 (restockItem vs ps it).2).2 j = some p
    cases hvs : vs it.variant_id with
    | none =>
      have hstep : restockItem vs ps it = (vs, ps) := by
        simp only [restockItem, hvs]
      rw [hstep]
      exact ih vs ps j p hp hact
    | some w =>
      cases hpw : ps w.product_id with
      | none =>
        have hstep2 : (restockItem vs ps it).2 = ps := by
          simp only [restockItem, hvs, hpw]
        rw [hstep2]
        exact ih _ _ j p hp hact
      | some pw =>
        by_cases hws : pw.status = "active"
        · have hstep2 : (restockItem vs ps it).2 = ps := by
            simp only [restockItem, hvs, hpw]
            rw [if_neg (by simpa using hws)]
          rw [hstep2]
          exact ih _ _ j p hp hact
        · have hstep2 : (restockItem vs ps it).2 = fun j' =>
              if j' = w.product_id then some { pw with status := "active" } else ps j' := by
            simp only [restockItem, hvs, hpw]
            rw [if_pos (by simpa using hws)]
          by_cases hj : j = w.product_id
          · exfalso
            rw [hj, hpw] at hp
            have : pw = p := (Option.some.injEq _ _).mp hp
            rw [this] at hws
            exact hws hact
          · have hstep2j : (restockItem vs ps it).2 j = some p := by
              rw [hstep2]
              simp only [if_neg hj]
              exact hp
            exact ih _ _ j p hstep2j hact

/-- A product referenced (via an existing variant) by some item of the
restock loop ends the loop with status `"active"`. -/
theorem restockFold_products_activated (items : List OrderItemRec) :
    ∀ (vs : VMap) (ps : PMap) (j : Nat) (p : ProductRec),
      ps j = some p →
      (∃ it ∈ items, ∃ v, vs it.variant_id = some v ∧ v.product_id = j) →
      ∃ p', (restockFold items vs ps).2 j = some p' ∧ p'.status = "active" := by
  induction items with
  | nil =>
    intro vs ps j p _ hw
    obtain ⟨it, hit, _⟩ := hw
    simp at hit
  | cons it0 rest ih =>
    intro vs ps j p hp hw
    obtain ⟨it, hit, v, hv, hvp⟩ := hw
    unfold restockFold
    show ∃ p', (restockFold rest (restockItem vs ps it0).1 (restockItem vs ps it0).2).2 j = some p' ∧
      p'.status = "active"
    rcases List.mem_cons.mp hit with rfl | hitrest
    · -- the head item references product j through variant v
      by_cases hact : p.status = "active"
      · have hstep2 : (restockItem vs ps it).2 = ps := by
          simp only [restockItem, hv, hvp, hp]
          rw [if_neg (by simpa using hact)]
        rw [hstep2]
        exact ⟨p, restockFold_products_active rest _ ps j p hp hact, hact⟩
      · have hstep2 : (restockItem vs ps it).2 = fun j' =>
            if j' = j then some { p with status := "active" } else ps j' := by
          simp only [restockItem, hv, hvp, hp]
          rw [if_pos (by simpa using hact)]
        have hstep2j : (restockItem vs ps it).2 j = some { p with status := "active" } := by
          rw [hstep2]; simp
        exact ⟨{ p with status := "active" },
          restockFold_products_active rest _ _ j _ hstep2j rfl, rfl⟩
    · -- the witness item sits in the tail: transport it through the head step
      cases hvs0 : vs it0.variant_id with
      | none =>
        have hstep : restockItem vs ps it0 = (vs, ps) := by
          simp only [restockItem, hvs0]
        rw [hstep]
        exact ih vs ps j p hp ⟨it, hitrest, v, hv, hvp⟩
      | some w =>
        have hstep1 : (restockItem vs ps it0).1 = fun i =>
            if i = it0.variant_id then some { w with stock_qty := pyOrZero w.stock_qty + it0.qty }
            else vs i := by
          simp only [restockItem, hvs0]
        -- the witness variant survives the stock update with the same product
        have hv' : ∃ v', (restockItem vs ps it0).1 it.variant_id = some v' ∧ v'.product_id = j := by
          rw [hstep1]
          by_cases hi : it.variant_id = it0.variant_id
          · have hwv : w = v := by
              rw [← hi, hv] at hvs0
              exact (Option.some_inj.mp hvs0).symm
            refine ⟨{ w with stock_qty := pyOrZero w.stock_qty + it0.qty }, by simp [hi], ?_⟩
            show w.product_id = j
            rw [hwv]
            exact hvp
          · exact ⟨v, by simp only [if_neg hi]; exact hv, hvp⟩
        -- product j still has a row after the head step
        have hp' : ∃ p'', (restockItem vs ps it0).2 j = some p'' := by
          cases hpw : ps w.product_id with
          | none =>
            have hstep2 : (restockItem vs ps it0).2 = ps := by
              simp only [restockItem, hvs0, hpw]
            exact ⟨p, by rw [hstep2]; exact hp⟩
          | some pw =>
            by_cases hws : pw.status = "active"
            · have hstep2 : (restockItem vs ps it0).2 = ps := by
                simp only [restockItem, hvs0, hpw]
                rw [if_neg (by simpa using hws)]
              exact ⟨p, by rw [hstep2]; exact hp⟩
            · have hstep2 : (restockItem vs ps it0).2 = fun j' =>
                  if j' = w.product_id then some { pw with status := "active" } else ps j' := by
                simp only [restockItem, hvs0, hpw]
                rw [if_pos (by simpa using hws)]
              by_cases hj : j = w.product_id
              · exact ⟨{ pw with status := "active" }, by rw [hstep2]; simp [hj]⟩
              · exact ⟨p, by rw [hstep2]; simp only [if_neg hj]; exact hp⟩
        obtain ⟨v', hv'1, hv'2⟩ := hv'
        obtain ⟨p'', hp''⟩ := hp'
        exact ih _ _ j p'' hp'' ⟨it, hitrest, v', hv'1, hv'2⟩

/-- C7: canceling a not-yet-canceled order with `action=restock`
reports success, sets the order status to `"canceled"`, cancels every
payment (clearing `paid_at`), cancels the shipment when present
(clearing its timestamps), returns every referenced variant's quantity
to stock, and reactivates the parent product of every referenced
variant. -/
theorem cancel_order_restock_effects (db : AdminDb)
    (h1 : db.order.status ≠ "canceled") (h2 : db.order.status ≠ "canceled_damaged") :
    (cancel_order db "restock").2 = AdminMsg.success ∧
    (cancel_order db "restock").1.order.status = "canceled" ∧
    (cancel_order db "restock").1.order.payments =
      db.order.payments.map (fun p => { p with status := "canceled", paid_at := none }) ∧
    (cancel_order db "restock").1.order.shipment =
      db.order.shipment.map
        (fun s => { s with status := some "canceled", shipped_at := none, received_at := none }) ∧
    (∀ i v, db.variants i = some v →
      (cancel_order db "restock").1.variants i =
        some { v with stock_qty := v.stock_qty + itemsQtyFor db.order.items i }) ∧
    (∀ j p, db.products j = some p →
      (∃ it ∈ db.order.items, ∃ v, db.variants it.variant_id = some v ∧ v.product_id = j) →
      ∃ p', (cancel_order db "restock").1.products j = some p' ∧ p'.status = "active") := by
  have hred : cancel_order db "restock" =
      ({ variants := (restockFold db.order.items db.variants db.products).1,
         products := (restockFold db.order.items db.variants db.products).2,
         order :=
           { db.order with
             status := "canceled",
             payments := db.order.payments.map (fun p => { p with status := "canceled", paid_at := none }),
             shipment := db.order.shipment.map (fun s => { s with status := some "canceled", shipped_at := none, received_at := none }) } },
       AdminMsg.success) := by
    unfold cancel_order
    rw [if_neg (by push_neg; exact ⟨h1, h2⟩), if_neg (by simp)]
    simp
  rw [hred]
  refine ⟨rfl, rfl, rfl, rfl, ?_, ?_⟩
  · intro i v hv
    exact restockFold_variants db.order.items db.variants db.products i v hv
  · intro j p hp hw
    exact restockFold_products_activated db.order.items db.variants db.products j p hp hw

/-- C7 witness: the sample order (one item, qty 1, variant 1 with stock
5, inactive product 7, one payment, one shipped shipment) canceled with
restock. -/
theorem cancel_order_restock_effects_witness :
    (cancel_order sampleAdminDb "restock").2 = AdminMsg.success ∧
    (cancel_order sampleAdminDb "restock").1.order.status = "canceled" ∧
    (cancel_order sampleAdminDb "restock").1.order.payments =
      sampleOrder.payments.map (fun p => { p with status := "canceled", paid_at := none }) ∧
    (cancel_order sampleAdminDb "restock").1.order.shipment =
      sampleOrder.shipment.map
        (fun s => { s with status := some "canceled", shipped_at := none, received_at := none }) ∧
    (∀ i v, sampleVariants i = some v →
      (cancel_order sampleAdminDb "restock").1.variants i =
        some { v with stock_qty := v.stock_qty + itemsQtyFor sampleOrder.items i }) ∧
    (∀ j p, sampleProducts j = some p →
      (∃ it ∈ sampleOrder.items, ∃ v, sampleVariants it.variant_id = some v ∧ v.product_id = j) →
      ∃ p', (cancel_order sampleAdminDb "restock").1.products j = some p' ∧ p'.status = "active") :=
  cancel_order_restock_effects sampleAdminDb (by decide) (by decide)

end Betta
